import Mathlib

/-!
Verification of the AASHTO 1993 flexible-pavement design core of this
repository (`report-flexible-pavment.py`): the layer aggregation
`calculate_sn_provided`, the design check `check_design`, the design-equation
residual `aashto_1993_equation`, the root-finding wrapper
`calculate_sn_required`, and the CBR-to-resilient-modulus correlation used in
`main`.

The exact-arithmetic parts of the code (weighted sums, comparisons, rounding)
are embedded over `ℚ`; the transcendental residual and the solver are embedded
over `ℝ` with `Real.logb 10` for `np.log10` and real exponentiation (`rpow`)
for Python's `**`.

Python's `round(x, d)` rounds half to even on binary floats.  It is modelled
here as round-half-up (`⌊x·10^d + 1/2⌋ / 10^d`); every concrete value appearing
in this development is away from a tie, where the two rules agree.
-/

/-- `round(x, d)` of Python, over `ℚ` (see header note on tie behaviour). -/
def round_to (d : ℕ) (q : ℚ) : ℚ := (⌊q * 10 ^ d + 1/2⌋ : ℚ) / 10 ^ d

/-- `round(x, d)` of Python, over `ℝ` (see header note on tie behaviour). -/
noncomputable def round_to_real (d : ℕ) (x : ℝ) : ℝ := (⌊x * 10 ^ d + 1/2⌋ : ℝ) / 10 ^ d

/-- The seven keys of the `MATERIALS` dict. -/
inductive Material where
  | AC                   -- "Asphalt Concrete (AC)"
  | CrushedAggregateBase -- "Crushed Aggregate Base"
  | CTB                  -- "Cement Treated Base (CTB)"
  | GranularSubbase      -- "Granular Subbase"
  | ImprovedSubgrade     -- "Improved Subgrade"
  | LimeTreatedSubgrade  -- "Lime Treated Subgrade"
  | EAM                  -- "Emulsified Asphalt Mix (EAM)"
  deriving DecidableEq, Repr

/-- `MATERIALS[m]['layer_coeff']`. -/
def layer_coeff : Material → ℚ
  | .AC => 0.44
  | .CrushedAggregateBase => 0.14
  | .CTB => 0.23
  | .GranularSubbase => 0.11
  | .ImprovedSubgrade => 0.08
  | .LimeTreatedSubgrade => 0.10
  | .EAM => 0.30

/-- `MATERIALS[m]['drainage_range']`. -/
def drainage_range : Material → ℚ × ℚ
  | .AC => (1.0, 1.0)
  | .CrushedAggregateBase => (0.80, 1.25)
  | .CTB => (0.80, 1.25)
  | .GranularSubbase => (0.80, 1.25)
  | .ImprovedSubgrade => (0.80, 1.25)
  | .LimeTreatedSubgrade => (0.80, 1.25)
  | .EAM => (1.0, 1.0)

/-- `MATERIALS[m]['elastic_modulus_psi']`. -/
def elastic_modulus_psi : Material → ℚ
  | .AC => 450000
  | .CrushedAggregateBase => 30000
  | .CTB => 100000
  | .GranularSubbase => 15000
  | .ImprovedSubgrade => 10000
  | .LimeTreatedSubgrade => 20000
  | .EAM => 300000

/-- `MATERIALS[m]['elastic_modulus_mpa']`. -/
def elastic_modulus_mpa : Material → ℚ
  | .AC => 3100
  | .CrushedAggregateBase => 207
  | .CTB => 690
  | .GranularSubbase => 103
  | .ImprovedSubgrade => 69
  | .LimeTreatedSubgrade => 138
  | .EAM => 2070

/-- The dict key naming the material (`material` strings of the app). -/
def material_name : Material → String
  | .AC => "Asphalt Concrete (AC)"
  | .CrushedAggregateBase => "Crushed Aggregate Base"
  | .CTB => "Cement Treated Base (CTB)"
  | .GranularSubbase => "Granular Subbase"
  | .ImprovedSubgrade => "Improved Subgrade"
  | .LimeTreatedSubgrade => "Lime Treated Subgrade"
  | .EAM => "Emulsified Asphalt Mix (EAM)"

/-- One element of the `layers` list handed to `calculate_sn_provided`:
a dict with keys `material`, `thickness_cm`, `drainage_coeff`. -/
structure Layer where
  material : Material
  thickness_cm : ℚ
  drainage_coeff : ℚ
  deriving DecidableEq, Repr

/-- One entry of the `layer_details` list built by `calculate_sn_provided`.
(The cosmetic Thai name `material_th` is recoverable from `material` and is
not repeated here.) -/
structure LayerDetail where
  layer_no : ℕ
  material : Material
  thickness_cm : ℚ
  thickness_inch : ℚ
  layer_coeff : ℚ
  drainage_coeff : ℚ
  sn_contribution : ℚ
  deriving DecidableEq, Repr

/-- The effective drainage coefficient `m_i` of the loop body of
`calculate_sn_provided`: forced to `1.0` exactly when `i == 0` and the
material is `"Asphalt Concrete (AC)"`, otherwise the configured value. -/
def m_eff (i : ℕ) (l : Layer) : ℚ :=
  if i = 0 ∧ l.material = Material.AC then 1 else l.drainage_coeff

/-- `sn_contribution = a_i * thickness_inch * m_i` for the layer at index `i`
(thickness converted `cm → inch` by dividing by `2.54`). -/
def sn_contribution_at (i : ℕ) (l : Layer) : ℚ :=
  layer_coeff l.material * (l.thickness_cm / 2.54) * m_eff i l

/-- The `layer_details` entry built for the layer at index `i`. -/
def layer_detail_at (i : ℕ) (l : Layer) : LayerDetail :=
  { layer_no := i + 1
    material := l.material
    thickness_cm := l.thickness_cm
    thickness_inch := round_to 3 (l.thickness_cm / 2.54)
    layer_coeff := layer_coeff l.material
    drainage_coeff := m_eff i l
    sn_contribution := round_to 4 (sn_contribution_at i l) }

/-- Return value of `calculate_sn_provided`. -/
structure SNProvidedResult where
  SN_provided : ℚ
  layer_details : List LayerDetail
  deriving DecidableEq, Repr

/-- `calculate_sn_provided(layers)`: the enumerate loop accumulating
`total_sn` and `layer_details`, with the final `round(total_sn, 3)`. -/
def calculate_sn_provided (layers : List Layer) : SNProvidedResult :=
  { SN_provided := round_to 3 ((layers.enum.map fun p => sn_contribution_at p.1 p.2).sum)
    layer_details := layers.enum.map fun p => layer_detail_at p.1 p.2 }

/-- Return value of `check_design`.  The Python error branch returns a dict
without the `passed` key; both `passed` and `safety_margin` are therefore
`Option`-valued here, `none` meaning "key absent / value `None`". -/
structure CheckResult where
  status : String
  passed : Option Bool
  safety_margin : Option ℚ
  message : String
  deriving DecidableEq, Repr

/-- `check_design(sn_required, sn_provided)`.  The success-branch `message`
interpolates the two numbers with `%.3f` formatting; the digit rendering is
abstracted as `toString` of the 3-rounded rationals. -/
def check_design (sn_required : Option ℚ) (sn_provided : ℚ) : CheckResult :=
  match sn_required with
  | none =>
      { status := "ERROR"
        passed := none
        safety_margin := none
        message := "Cannot calculate SN_required" }
  | some req =>
      let safety_margin := sn_provided - req
      let passed : Bool := sn_provided ≥ req
      { status := if passed then "PASS ✅" else "FAIL ❌"
        passed := some passed
        safety_margin := some (round_to 3 safety_margin)
        message := "SN_provided (" ++ toString (round_to 3 sn_provided) ++ ") "
          ++ (if passed then "≥" else "<")
          ++ " SN_required (" ++ toString (round_to 3 req) ++ ")" }

/-- The position-independent layer contribution `aᵢ · Dᵢ(inch) · mᵢ` using the
configured drainage coefficient (what the loop computes at every index `i > 0`). -/
def plain_contribution (l : Layer) : ℚ :=
  layer_coeff l.material * (l.thickness_cm / 2.54) * l.drainage_coeff

/-- The layer transformation "double every thickness". -/
def double_thickness (l : Layer) : Layer :=
  { l with thickness_cm := 2 * l.thickness_cm }

/-- `np.log10`. -/
noncomputable def log10 (x : ℝ) : ℝ := Real.logb 10 x

/-- `aashto_1993_equation(SN, W18, Zr, So, delta_psi, Mr)`: the residual of
the AASHTO 1993 flexible-pavement design equation, `right_side - log_W18`. -/
noncomputable def aashto_1993_equation (SN W18 Zr So delta_psi Mr : ℝ) : ℝ :=
  let log_W18 := log10 W18
  let term1 := Zr * So
  let term2 := 9.36 * log10 (SN + 1) - 0.20
  let numerator := log10 (delta_psi / (4.2 - 1.5))
  let denominator := 0.4 + 1094 / (SN + 1) ^ (5.19 : ℝ)
  let term3 := numerator / denominator
  let term4 := 2.32 * log10 Mr - 8.07
  let right_side := term1 + term2 + term3 + term4
  right_side - log_W18

/-- The residual exactly as the spec writes it (one flat sum), to be compared
with the source's grouped form `aashto_1993_equation`. -/
noncomputable def residual_spec (SN W18 Zr So delta_psi Mr : ℝ) : ℝ :=
  Zr * So
    + 9.36 * log10 (SN + 1) - 0.20
    + log10 (delta_psi / (4.2 - 1.5)) / (0.4 + 1094 / (SN + 1) ^ (5.19 : ℝ))
    + 2.32 * log10 Mr - 8.07
    - log10 W18

/-- The observable outcome of the `brentq(f, 0.1, 20.0, xtol=1e-6, maxiter=100)`
call: a returned root, a raised `ValueError`, or a raised `RuntimeError`. -/
inductive BrentOutcome where
  | root (x : ℝ)
  | valueError (msg : String)
  | runtimeError (msg : String)

/-- Modelled from the spec: `scipy.optimize.brentq` is third-party code not in
this repository.  Following the spec's description of the solver ("evaluate
residual at both bracket endpoints", "converge using a bracketed root-finding
method … to an absolute tolerance on SN of 1×10⁻⁶, with a maximum iteration
cap"), an outcome of the call on `f` over `[0.1, 20.0]` is admissible when:
a returned root lies in the bracket within `1e-6` of a true root of `f`;
`ValueError` is raised when the residual has the same (nonzero) sign at both
bracket endpoints; `RuntimeError` is raised when the iteration cap is
exhausted (not further constrained here). -/
def brentq_outcome_valid (f : ℝ → ℝ) : BrentOutcome → Prop
  | .root x => 0.1 ≤ x ∧ x ≤ 20 ∧ ∃ r, 0.1 ≤ r ∧ r ≤ 20 ∧ f r = 0 ∧ |x - r| ≤ 1e-6
  | .valueError _ => f 0.1 * f 20 > 0
  | .runtimeError _ => True

/-- Return dict of `calculate_sn_required`.  The converged branch's dict has no
`error` key and the failure branch's dict has no further keys; absent keys and
Python `None` are both modelled as `none`. -/
structure SNRequiredResult where
  SN_required : Option ℝ
  converged : Bool
  error : Option String
  iterations : List (ℝ × ℝ)

/-- `np.linspace(a, b, n)`. -/
noncomputable def linspace (a b : ℝ) (n : ℕ) : List ℝ :=
  (List.range n).map fun k => a + (b - a) * k / (n - 1)

/-- `calculate_sn_required(W18, Zr, So, delta_psi, Mr)`, parameterised by the
outcome of the `brentq` call it wraps.  The `try/except ValueError` of the
source handles only `ValueError`; a `RuntimeError` escapes the function, which
is modelled by `Except.error` (an uncaught exception propagating to the
caller), while both dict-returning paths are `Except.ok`. -/
noncomputable def calculate_sn_required (W18 Zr So delta_psi Mr : ℝ)
    (outcome : BrentOutcome) : Except String SNRequiredResult :=
  let f := fun SN => aashto_1993_equation SN W18 Zr So delta_psi Mr
  match outcome with
  | .root SN_required =>
      .ok { SN_required := some (round_to_real 3 SN_required)
            converged := true
            error := none
            iterations := (linspace 0.5 (SN_required * 1.5) 10).map fun s => (s, f s) }
  | .valueError e =>
      .ok { SN_required := none, converged := false, error := some e, iterations := [] }
  | .runtimeError e => .error e

/-- Python `int()`: truncation toward zero. -/
noncomputable def py_int (x : ℝ) : ℤ := if 0 ≤ x then ⌊x⌋ else ⌈x⌉

/-- The CBR branch of `main`:
`Mr = int(1500 * CBR)` if `CBR <= 10` else `Mr = int(2555 * CBR ** 0.64)`. -/
noncomputable def mr_from_cbr (CBR : ℝ) : ℝ :=
  if CBR ≤ 10 then (py_int (1500 * CBR) : ℝ)
  else (py_int (2555 * CBR ^ (0.64 : ℝ)) : ℝ)

/-- The unrounded accumulated `total_sn` of `calculate_sn_provided`. -/
def sn_total (layers : List Layer) : ℚ :=
  (layers.enum.map fun p => sn_contribution_at p.1 p.2).sum

/-- A design-ESAL value engineered so that, with `Zr = 0`, `So = 0.45`,
`ΔPSI = 2.7` and `Mr = 1`, the residual of the design equation has the exact
in-bracket root `SN = 2.0004` (the serviceability term vanishes because
`log10(2.7/2.7) = 0`, leaving `9.36·(log10(SN+1) − log10 3.0004)`). -/
noncomputable def W18_c4 : ℝ := (3.0004 : ℝ) ^ (9.36 : ℝ) / (10 : ℝ) ^ (8.27 : ℝ)

example : (calculate_sn_provided []).SN_provided = 0 := by
  norm_num [calculate_sn_provided, round_to]

example :
    (calculate_sn_provided [⟨Material.CrushedAggregateBase, 2.54, 0.8⟩]).SN_provided
      = 0.112 := by
  norm_num +decide [calculate_sn_provided, round_to, sn_contribution_at, m_eff, layer_coeff]

example : (check_design (some 4) 5).passed = some true := by decide

/-! ### Helper lemmas on the layer aggregation -/

lemma sn_contribution_at_pos (i : ℕ) (l : Layer) (h : i ≠ 0) :
    sn_contribution_at i l = plain_contribution l := by
  simp [sn_contribution_at, plain_contribution, m_eff, h]

lemma sum_enumFrom_contribution (L : List Layer) (n : ℕ) (hn : n ≠ 0) :
    ((L.enumFrom n).map fun p => sn_contribution_at p.1 p.2).sum
      = (L.map plain_contribution).sum := by
  induction L generalizing n with
  | nil => simp
  | cons l rest ih =>
      simp only [List.enumFrom_cons, List.map_cons, List.sum_cons,
        sn_contribution_at_pos n l hn, ih (n + 1) (Nat.succ_ne_zero n)]

lemma sn_total_cons (l : Layer) (rest : List Layer) :
    sn_total (l :: rest)
      = sn_contribution_at 0 l + (rest.map plain_contribution).sum := by
  simp only [sn_total, List.enum_cons, List.map_cons, List.sum_cons,
    sum_enumFrom_contribution rest 1 one_ne_zero]

lemma sn_total_eq_plain (L : List Layer)
    (h : ∀ l ∈ L, l.material = Material.AC → l.drainage_coeff = 1) :
    sn_total L = (L.map plain_contribution).sum := by
  cases L with
  | nil => simp [sn_total]
  | cons l rest =>
      rw [sn_total_cons]
      have hhead : sn_contribution_at 0 l = plain_contribution l := by
        by_cases hac : l.material = Material.AC
        · simp [sn_contribution_at, plain_contribution, m_eff, hac,
            h l (List.mem_cons_self l rest) hac]
        · simp [sn_contribution_at, plain_contribution, m_eff, hac]
      simp [hhead]

lemma plain_contribution_double (l : Layer) :
    plain_contribution (double_thickness l) = 2 * plain_contribution l := by
  simp [plain_contribution, double_thickness]; ring

lemma sn_contribution_at_double (i : ℕ) (l : Layer) :
    sn_contribution_at i (double_thickness l) = 2 * sn_contribution_at i l := by
  simp only [sn_contribution_at, double_thickness, m_eff]
  ring

/-! ### Claims about `calculate_sn_provided` -/

/-- C1 counterexample: with a first layer that is not asphalt concrete
(`Crushed Aggregate Base` with configured `mᵢ = 0.8`), the effective drainage
coefficient used (and recorded in `layer_details`) is the configured `0.8`,
not `1.0`, and `SN_provided = 0.112 = 0.14·1·0.8` differs from the `0.14` the
claimed override would give.  This refutes "the effective drainage coefficient
used for the first layer is 1.0 regardless of the configured value". -/
theorem C1_counterexample :
    ((calculate_sn_provided [⟨Material.CrushedAggregateBase, 2.54, 0.8⟩]).layer_details.map
        (fun d => d.drainage_coeff)) = [0.8]
    ∧ (0.8 : ℚ) ≠ 1
    ∧ (calculate_sn_provided [⟨Material.CrushedAggregateBase, 2.54, 0.8⟩]).SN_provided = 0.112
    ∧ (0.112 : ℚ)
        ≠ round_to 3 (layer_coeff Material.CrushedAggregateBase * (2.54 / 2.54) * 1) := by
  refine ⟨?_, by norm_num, ?_, ?_⟩
  · norm_num +decide [calculate_sn_provided, layer_detail_at, m_eff]
  · norm_num +decide [calculate_sn_provided, round_to, sn_contribution_at, m_eff, layer_coeff]
  · norm_num [round_to, layer_coeff]

/-- C1 (amended): the first layer's effective drainage coefficient is forced
to `1.0` exactly when its material is `"Asphalt Concrete (AC)"`; for any other
first-layer material the configured coefficient is used unchanged. -/
theorem C1_theorem (l : Layer) (rest : List Layer) :
    ((calculate_sn_provided (l :: rest)).layer_details.head?).map (fun d => d.drainage_coeff)
      = some (if l.material = Material.AC then 1 else l.drainage_coeff) := by
  simp [calculate_sn_provided, List.enum_cons, layer_detail_at, m_eff]

/-- C2 counterexample: `calculate_sn_provided` performs no input validation.
The empty layer list is not rejected — it yields the ordinary result
`{SN_provided: 0.0, layer_details: []}` — and a layer with negative thickness
is not rejected either, its negative contribution being summed as-is. -/
theorem C2_counterexample :
    calculate_sn_provided [] = ⟨0, []⟩
    ∧ (calculate_sn_provided [⟨Material.CrushedAggregateBase, -2.54, 1.0⟩]).SN_provided
        = -0.14 := by
  constructor
  · have h1 : (calculate_sn_provided []).SN_provided = 0 := by
      norm_num [calculate_sn_provided, round_to]
    have h2 : (calculate_sn_provided []).layer_details = [] := rfl
    cases hc : calculate_sn_provided [] with
    | mk sn det => simp_all
  · norm_num +decide [calculate_sn_provided, round_to, sn_contribution_at, m_eff, layer_coeff]

/-- C2 (amended): no input invariant is checked anywhere: every layer list —
empty, or containing non-positive thicknesses or coefficients — is processed
in full, producing a per-layer detail row for every input layer and the
rounded weighted sum (`InvalidInput` does not exist in the code). -/
theorem C2_theorem (layers : List Layer) :
    (calculate_sn_provided layers).layer_details.length = layers.length
    ∧ (calculate_sn_provided layers).SN_provided = round_to 3 (sn_total layers) := by
  exact ⟨by simp [calculate_sn_provided], rfl⟩

/-- C6 counterexample: `calculate_sn_provided` is not invariant under
reordering, and its (rounded) return value does not scale linearly with
thickness.  Swapping an AC layer (configured `m = 0.5`) with a base layer
changes the result from `0.58` to `0.36`, because the surface override applies
to AC only while it sits at index 0; and doubling the thickness of a thin
layer turns `SN_provided = 0` into `0.001 ≠ 2·0`. -/
theorem C6_counterexample :
    ([⟨Material.AC, 2.54, 0.5⟩, ⟨Material.CrushedAggregateBase, 2.54, 1⟩] : List Layer).Perm
        [⟨Material.CrushedAggregateBase, 2.54, 1⟩, ⟨Material.AC, 2.54, 0.5⟩]
    ∧ (calculate_sn_provided
          [⟨Material.AC, 2.54, 0.5⟩, ⟨Material.CrushedAggregateBase, 2.54, 1⟩]).SN_provided
        ≠ (calculate_sn_provided
          [⟨Material.CrushedAggregateBase, 2.54, 1⟩, ⟨Material.AC, 2.54, 0.5⟩]).SN_provided
    ∧ (calculate_sn_provided
          [(double_thickness ⟨Material.CrushedAggregateBase, 0.00762, 1⟩)]).SN_provided
        ≠ 2 * (calculate_sn_provided
          [⟨Material.CrushedAggregateBase, 0.00762, 1⟩]).SN_provided := by
  refine ⟨List.Perm.swap _ _ _, ?_, ?_⟩
  · norm_num +decide [calculate_sn_provided, round_to, sn_contribution_at, m_eff,
      layer_coeff, List.enum_cons, List.enumFrom_cons]
  · norm_num +decide [calculate_sn_provided, round_to, sn_contribution_at, m_eff,
      layer_coeff, double_thickness]

/-- C6 (amended): the unrounded total `Σ aᵢ·Dᵢ·mᵢ` is invariant under
reordering of the layers provided every AC layer carries drainage coefficient
`1.0` (so the index-0 surface override changes no effective coefficient), and
it scales exactly linearly: doubling every thickness doubles the unrounded
total unconditionally.  (The rounded returned value and sequences with an AC
layer whose configured `m ≠ 1` break the exact laws, per the counterexample.) -/
theorem C6_theorem :
    (∀ L1 L2 : List Layer, L1.Perm L2 →
        (∀ l ∈ L1, l.material = Material.AC → l.drainage_coeff = 1) →
        sn_total L1 = sn_total L2)
    ∧ (∀ L : List Layer, sn_total (L.map double_thickness) = 2 * sn_total L) := by
  constructor
  · intro L1 L2 hperm hcond
    have hcond2 : ∀ l ∈ L2, l.material = Material.AC → l.drainage_coeff = 1 := by
      intro l hl
      exact hcond l (hperm.mem_iff.mpr hl)
    rw [sn_total_eq_plain L1 hcond, sn_total_eq_plain L2 hcond2]
    exact (hperm.map plain_contribution).sum_eq
  · intro L
    cases L with
    | nil => simp [sn_total]
    | cons l rest =>
        rw [List.map_cons, sn_total_cons, sn_total_cons, sn_contribution_at_double,
          List.map_map]
        have : (rest.map (plain_contribution ∘ double_thickness)).sum
            = 2 * (rest.map plain_contribution).sum := by
          rw [show plain_contribution ∘ double_thickness
                = fun l => 2 * plain_contribution l from funext plain_contribution_double]
          rw [← List.sum_map_mul_left]
        rw [this]; ring

/-- C6 witness: the amended invariance applied to the concrete swap of an AC
layer (drainage 1.0) with a granular subbase layer. -/
theorem C6_witness :
    ([⟨Material.AC, 10, 1⟩, ⟨Material.GranularSubbase, 15, 0.9⟩] : List Layer).Perm
        [⟨Material.GranularSubbase, 15, 0.9⟩, ⟨Material.AC, 10, 1⟩]
    ∧ (∀ l ∈ ([⟨Material.AC, 10, 1⟩, ⟨Material.GranularSubbase, 15, 0.9⟩] : List Layer),
        l.material = Material.AC → l.drainage_coeff = 1)
    ∧ sn_total [⟨Material.AC, 10, 1⟩, ⟨Material.GranularSubbase, 15, 0.9⟩]
        = sn_total [⟨Material.GranularSubbase, 15, 0.9⟩, ⟨Material.AC, 10, 1⟩] := by
  refine ⟨List.Perm.swap _ _ _, ?_, ?_⟩
  · intro l hl h
    simp only [List.mem_cons, List.not_mem_nil, or_false] at hl
    rcases hl with rfl | rfl
    · rfl
    · exact absurd h (by simp)
  · exact C6_theorem.1 _ _ (List.Perm.swap _ _ _) (by
      intro l hl h
      simp only [List.mem_cons, List.not_mem_nil, or_false] at hl
      rcases hl with rfl | rfl
      · rfl
      · exact absurd h (by simp))

/-! ### Claims about `check_design` -/

/-- C8: for every pair of values, `check_design` returns
`safety_margin = round(SN_provided − SN_required, 3)` and `passed = true`
exactly when `SN_provided − SN_required ≥ 0`; the equality case passes. -/
theorem C8_theorem (req prov : ℚ) :
    (check_design (some req) prov).safety_margin = some (round_to 3 (prov - req))
    ∧ ((check_design (some req) prov).passed = some true ↔ 0 ≤ prov - req)
    ∧ (check_design (some req) req).passed = some true := by
  refine ⟨rfl, ?_, by simp [check_design]⟩
  simp [check_design, sub_nonneg]

/-- C10: called with `sn_required = None`, `check_design` returns (without
raising) a result with status `'ERROR'`, `safety_margin = None`, the fixed
message, and no `passed` key (hence no pass/fail verdict). -/
theorem C10_theorem (prov : ℚ) :
    (check_design none prov).status = "ERROR"
    ∧ (check_design none prov).passed = none
    ∧ (check_design none prov).safety_margin = none
    ∧ (check_design none prov).message = "Cannot calculate SN_required" :=
  ⟨rfl, rfl, rfl, rfl⟩

/-! ### Claims about the residual -/

/-- C5: the residual computed by `aashto_1993_equation` (the source's grouped
`right_side - log_W18`) equals, for all arguments, the flat expression
`Zr·So + 9.36·log10(SN+1) − 0.20 + log10(ΔPSI/(4.2−1.5))/(0.4+1094/(SN+1)^5.19)
+ 2.32·log10(Mr) − 8.07 − log10(W18)` stated by the spec (in particular for
every `SN > −1`). -/
theorem C5_theorem (SN W18 Zr So delta_psi Mr : ℝ) :
    aashto_1993_equation SN W18 Zr So delta_psi Mr
      = residual_spec SN W18 Zr So delta_psi Mr := by
  simp only [aashto_1993_equation, residual_spec]
  ring

/-! ### Claims about `calculate_sn_required` and the solver wrapper -/

lemma residual_c3 (SN : ℝ) :
    aashto_1993_equation SN ((10:ℝ)^(100:ℕ)) 0 0.45 2.7 1
      = 9.36 * log10 (SN + 1) - 108.27 := by
  simp only [aashto_1993_equation]
  rw [show ((2.7:ℝ)/(4.2-1.5)) = 1 by norm_num]
  simp only [log10]
  rw [Real.logb_pow, Real.logb_self_eq_one (by norm_num), Real.logb_one]
  ring

lemma residual_c3_neg_01 :
    aashto_1993_equation 0.1 ((10:ℝ)^(100:ℕ)) 0 0.45 2.7 1 < 0 := by
  rw [residual_c3]
  simp only [log10]
  have h : Real.logb 10 ((0.1:ℝ) + 1) ≤ 1 := by
    rw [Real.logb_le_iff_le_rpow (by norm_num) (by norm_num), Real.rpow_one]
    norm_num
  linarith

lemma residual_c3_neg_20 :
    aashto_1993_equation 20 ((10:ℝ)^(100:ℕ)) 0 0.45 2.7 1 < 0 := by
  rw [residual_c3]
  simp only [log10]
  have h : Real.logb 10 ((20:ℝ) + 1) ≤ 2 := by
    rw [Real.logb_le_iff_le_rpow (by norm_num) (by norm_num),
      show (2:ℝ) = ((2:ℕ):ℝ) by norm_num, Real.rpow_natCast]
    norm_num
  have h2 := mul_le_mul_of_nonneg_left h (by norm_num : (0:ℝ) ≤ 9.36)
  linarith

/-- C3 counterexample: when the `brentq` call ends with the iteration cap
exhausted (a `RuntimeError`), `calculate_sn_required` does not return an error
value: the `try/except ValueError` clause does not catch `RuntimeError`, so
the exception escapes to the caller (modelled by `Except.error`), refuting
"surfaces every solver failure as a terminal error value … never as an
unhandled exception". -/
theorem C3_counterexample :
    calculate_sn_required ((10:ℝ)^(100:ℕ)) 0 0.45 2.7 1
        (.runtimeError "Failed to converge after 100 iterations.")
      = .error "Failed to converge after 100 iterations." := rfl

/-- C3 (amended): a `ValueError` from `brentq` (same residual sign at both
bracket endpoints — the spec's NoRootInBracket situation, realised here by the
astronomically large target `W18 = 10¹⁰⁰`, for which the residual is negative
at both `0.1` and `20`) is caught and returned as the error dict
`{SN_required: None, converged: False, error: msg, iterations: []}`; but a
`RuntimeError` from iteration-cap exhaustion is not caught and propagates as an
unhandled exception.  No distinct `NoRootInBracket`/`DidNotConverge` error
values exist — only the exception's message string. -/
theorem C3_theorem :
    (∀ (W18 Zr So delta_psi Mr : ℝ) (msg : String),
        calculate_sn_required W18 Zr So delta_psi Mr (.valueError msg)
          = .ok ⟨none, false, some msg, []⟩
        ∧ calculate_sn_required W18 Zr So delta_psi Mr (.runtimeError msg)
          = .error msg)
    ∧ brentq_outcome_valid
        (fun SN => aashto_1993_equation SN ((10:ℝ)^(100:ℕ)) 0 0.45 2.7 1)
        (.valueError "f(a) and f(b) must have different signs") := by
  constructor
  · intro _ _ _ _ _ _
    exact ⟨rfl, rfl⟩
  · simp only [brentq_outcome_valid, gt_iff_lt]
    exact mul_pos_of_neg_of_neg residual_c3_neg_01 residual_c3_neg_20

/-! ### Claims about the CBR correlation -/

/-- C9 counterexample: for `CBR = 2.0001` the code computes
`int(1500 * 2.0001) = int(3000.15) = 3000`, which differs from the exact
correlation value `1500·CBR = 3000.15`: the `int()` truncation makes the used
`Mr` unequal to `1500·CBR`. -/
theorem C9_counterexample : mr_from_cbr 2.0001 ≠ 1500 * 2.0001 := by
  have h : mr_from_cbr 2.0001 = (3000:ℝ) := by
    unfold mr_from_cbr py_int
    rw [if_pos (by norm_num : (2.0001:ℝ) ≤ 10),
      if_pos (by norm_num : (0:ℝ) ≤ 1500 * 2.0001),
      show (1500:ℝ) * 2.0001 = 3000.15 by norm_num,
      show (⌊(3000.15:ℝ)⌋:ℤ) = 3000 from by norm_num [Int.floor_eq_iff]]
    norm_num
  rw [h]
  norm_num

/-- C9 (amended): for CBR in the input range (`CBR ≥ 1`), the value used as
`Mr` is the correlation value truncated to an integer: it equals `1500·CBR`
(resp. `2555·CBR^0.64`) only up to the `int()` truncation, lying in the
half-open unit interval just below the exact value. -/
theorem C9_theorem (CBR : ℝ) (h1 : 1 ≤ CBR) :
    (CBR ≤ 10 →
      1500 * CBR - 1 < mr_from_cbr CBR ∧ mr_from_cbr CBR ≤ 1500 * CBR)
    ∧ (10 < CBR →
      2555 * CBR ^ (0.64:ℝ) - 1 < mr_from_cbr CBR
        ∧ mr_from_cbr CBR ≤ 2555 * CBR ^ (0.64:ℝ)) := by
  constructor
  · intro h10
    have hpos : (0:ℝ) ≤ 1500 * CBR := by nlinarith
    unfold mr_from_cbr py_int
    rw [if_pos h10, if_pos hpos]
    constructor
    · have := Int.lt_floor_add_one (1500 * CBR)
      linarith
    · exact Int.floor_le _
  · intro h10
    have hpos : (0:ℝ) ≤ 2555 * CBR ^ (0.64:ℝ) := by positivity
    unfold mr_from_cbr py_int
    rw [if_neg (not_le.mpr h10), if_pos hpos]
    constructor
    · have := Int.lt_floor_add_one (2555 * CBR ^ (0.64:ℝ))
      linarith
    · exact Int.floor_le _

/-- C9 witness: the truncation bounds applied at `CBR = 5` (first branch) and
`CBR = 20` (second branch). -/
theorem C9_witness :
    ((1:ℝ) ≤ 5 ∧ (5:ℝ) ≤ 10
      ∧ 1500 * (5:ℝ) - 1 < mr_from_cbr 5 ∧ mr_from_cbr 5 ≤ 1500 * 5)
    ∧ ((1:ℝ) ≤ 20 ∧ (10:ℝ) < 20
      ∧ 2555 * (20:ℝ) ^ (0.64:ℝ) - 1 < mr_from_cbr 20
      ∧ mr_from_cbr 20 ≤ 2555 * (20:ℝ) ^ (0.64:ℝ)) := by
  refine ⟨⟨by norm_num, by norm_num, ?_, ?_⟩, ⟨by norm_num, by norm_num, ?_, ?_⟩⟩
  · exact ((C9_theorem 5 (by norm_num)).1 (by norm_num)).1
  · exact ((C9_theorem 5 (by norm_num)).1 (by norm_num)).2
  · exact ((C9_theorem 20 (by norm_num)).2 (by norm_num)).1
  · exact ((C9_theorem 20 (by norm_num)).2 (by norm_num)).2

/-! ### Root validity of the returned SN (claim C4) -/

lemma logb_W18_c4 : log10 W18_c4 = 9.36 * log10 3.0004 - 8.27 := by
  unfold W18_c4 log10 Real.logb
  rw [Real.log_div (ne_of_gt (Real.rpow_pos_of_pos (by norm_num) _))
    (ne_of_gt (Real.rpow_pos_of_pos (by norm_num) _))]
  rw [Real.log_rpow (by norm_num), Real.log_rpow (by norm_num)]
  have h10 : Real.log 10 ≠ 0 := ne_of_gt (Real.log_pos (by norm_num))
  field_simp
  ring

lemma residual_c4 (SN : ℝ) :
    aashto_1993_equation SN W18_c4 0 0.45 2.7 1
      = 9.36 * (log10 (SN + 1) - log10 3.0004) := by
  simp only [aashto_1993_equation]
  rw [logb_W18_c4, show ((2.7:ℝ)/(4.2-1.5)) = 1 by norm_num]
  simp only [log10, Real.logb_one]
  ring

lemma root_c4 : aashto_1993_equation 2.0004 W18_c4 0 0.45 2.7 1 = 0 := by
  rw [residual_c4, show (2.0004:ℝ)+1 = 3.0004 by norm_num, sub_self, mul_zero]

lemma round_c4 : round_to_real 3 2.0004 = 2 := by
  unfold round_to_real
  rw [show (2.0004:ℝ) * 10^3 + 1/2 = 2000.9 by norm_num,
    show (⌊(2000.9:ℝ)⌋:ℤ) = 2000 from by norm_num [Int.floor_eq_iff]]
  norm_num

lemma resid2_c4 : (0.00001:ℝ) ≤ |aashto_1993_equation 2 W18_c4 0 0.45 2.7 1| := by
  rw [residual_c4, show (2:ℝ)+1 = 3 by norm_num]
  simp only [log10]
  have hlt : Real.logb 10 3 < Real.logb 10 3.0004 :=
    Real.logb_lt_logb (by norm_num) (by norm_num) (by norm_num)
  rw [abs_of_nonpos (by nlinarith : 9.36 * (Real.logb 10 3 - Real.logb 10 3.0004) ≤ 0)]
  have hdiff : Real.logb 10 3.0004 - Real.logb 10 3 = Real.logb 10 (3.0004/3) := by
    rw [Real.logb_div (by norm_num) (by norm_num)]
  have hlog10pos : (0:ℝ) < Real.log 10 := Real.log_pos (by norm_num)
  have hlog10le : Real.log 10 ≤ 9 := by
    have h := Real.log_le_sub_one_of_pos (show (0:ℝ) < 10 by norm_num)
    linarith
  have hlogx : (1/7501:ℝ) ≤ Real.log (3.0004/3) := by
    have h := Real.log_le_sub_one_of_pos (show (0:ℝ) < 3/3.0004 by norm_num)
    have h2 : Real.log (3/3.0004) = - Real.log (3.0004/3) := by
      rw [← Real.log_inv]
      norm_num
    rw [h2] at h
    have h3 : (3:ℝ)/3.0004 - 1 = -(1/7501) := by norm_num
    linarith
  have hlb : (1/7501:ℝ)/9 ≤ Real.logb 10 (3.0004/3) := by
    unfold Real.logb
    rw [div_le_div_iff₀ (by norm_num) hlog10pos]
    nlinarith
  linarith [hdiff, hlb]

/-- C4 counterexample: with the inputs `(W18_c4, Zr=0, So=0.45, ΔPSI=2.7,
Mr=1)` the residual has the exact root `2.0004` inside the bracket, so
`.root 2.0004` is an admissible converged `brentq` outcome; the call returns
`converged=True` with `SN_required = round(2.0004, 3) = 2.0`, and the residual
at the returned value `2.0` has absolute value `≥ 1e-5` — refuting
"`|residual(SN_required)| < 1e-5` for the value returned to the caller". -/
theorem C4_counterexample :
    brentq_outcome_valid (fun SN => aashto_1993_equation SN W18_c4 0 0.45 2.7 1)
        (.root 2.0004)
    ∧ (calculate_sn_required W18_c4 0 0.45 2.7 1 (.root 2.0004)).map
        (fun r => r.converged) = .ok true
    ∧ (calculate_sn_required W18_c4 0 0.45 2.7 1 (.root 2.0004)).map
        (fun r => r.SN_required) = .ok (some 2)
    ∧ ¬ (|aashto_1993_equation 2 W18_c4 0 0.45 2.7 1| < 0.00001) := by
  refine ⟨?_, rfl, ?_, not_lt.mpr resid2_c4⟩
  · simp only [brentq_outcome_valid]
    exact ⟨by norm_num, by norm_num, 2.0004, by norm_num, by norm_num, root_c4, by norm_num⟩
  · simp only [calculate_sn_required, Except.map]
    rw [round_c4]

lemma round_to_real_err (x : ℝ) : |round_to_real 3 x - x| ≤ 1/2000 := by
  unfold round_to_real
  rw [show ((10:ℝ)^(3:ℕ)) = 1000 by norm_num]
  have h1 := Int.floor_le (x * 1000 + 1/2)
  have h2 := Int.lt_floor_add_one (x * 1000 + 1/2)
  rw [abs_le]
  constructor
  · linarith
  · linarith

/-- C4 (amended): the value returned to the caller is the converged root
rounded to 3 decimal places (moving it by up to `5·10⁻⁴` from the root); the
root-validity bound `|residual| < 1e-5` holds for the unrounded converged
root, not in general for the rounded returned value. -/
theorem C4_theorem (W18 Zr So delta_psi Mr x : ℝ)
    (hroot : aashto_1993_equation x W18 Zr So delta_psi Mr = 0) :
    |aashto_1993_equation x W18 Zr So delta_psi Mr| < 0.00001
    ∧ (calculate_sn_required W18 Zr So delta_psi Mr (.root x)).map
        (fun r => r.SN_required) = .ok (some (round_to_real 3 x))
    ∧ |round_to_real 3 x - x| ≤ 1/2000 := by
  refine ⟨by rw [hroot]; norm_num, rfl, round_to_real_err x⟩

/-- C4 witness: the amended statement applied at the concrete converged root
`x = 2.0004` of the `W18_c4` inputs. -/
theorem C4_witness :
    aashto_1993_equation 2.0004 W18_c4 0 0.45 2.7 1 = 0
    ∧ (|aashto_1993_equation 2.0004 W18_c4 0 0.45 2.7 1| < 0.00001
      ∧ (calculate_sn_required W18_c4 0 0.45 2.7 1 (.root 2.0004)).map
          (fun r => r.SN_required) = .ok (some (round_to_real 3 2.0004))
      ∧ |round_to_real 3 2.0004 - 2.0004| ≤ 1/2000) :=
  ⟨root_c4, C4_theorem W18_c4 0 0.45 2.7 1 2.0004 root_c4⟩

/-! ### Monotonicity of the residual in SN (claim C7) -/

lemma residual_c7 (SN : ℝ) :
    aashto_1993_equation SN 1 0 0.45 0.0000027 1
      = 9.36 * log10 (SN + 1) - 8.27 - 6 / (0.4 + 1094 / (SN + 1) ^ (5.19:ℝ)) := by
  simp only [aashto_1993_equation]
  rw [show ((0.0000027:ℝ)/(4.2-1.5)) = ((10:ℝ)^(6:ℕ))⁻¹ by norm_num]
  simp only [log10]
  rw [Real.logb_inv, Real.logb_pow, Real.logb_self_eq_one (by norm_num), Real.logb_one]
  ring

lemma logb_54_lt : Real.logb 10 (5/4) < 2/5 := by
  rw [Real.logb_lt_iff_lt_rpow (by norm_num) (by norm_num)]
  have key : ((10:ℝ)^((2/5):ℝ))^(5:ℕ) = (10:ℝ)^(2:ℕ) := by
    rw [← Real.rpow_natCast ((10:ℝ)^((2/5):ℝ)) 5, ← Real.rpow_mul (by norm_num),
      show (2:ℝ)/5 * ((5:ℕ):ℝ) = ((2:ℕ):ℝ) by push_cast; ring, Real.rpow_natCast]
  have h : ((5/4:ℝ))^(5:ℕ) < ((10:ℝ)^((2/5):ℝ))^(5:ℕ) := by
    rw [key]; norm_num
  exact lt_of_pow_lt_pow_left₀ 5 (Real.rpow_pos_of_pos (by norm_num) _).le h

lemma rpow4_519_lt : (4:ℝ) ^ (5.19:ℝ) < 1367.5 := by
  have h1 : (4:ℝ) ^ (5.19:ℝ) < (4:ℝ) ^ (5.2:ℝ) :=
    Real.rpow_lt_rpow_of_exponent_lt (by norm_num) (by norm_num)
  have key : ((4:ℝ) ^ (5.2:ℝ))^(5:ℕ) = (4:ℝ)^(26:ℕ) := by
    rw [← Real.rpow_natCast ((4:ℝ)^(5.2:ℝ)) 5, ← Real.rpow_mul (by norm_num),
      show (5.2:ℝ) * ((5:ℕ):ℝ) = ((26:ℕ):ℝ) by push_cast; norm_num, Real.rpow_natCast]
  have hlt : ((4:ℝ)^(5.2:ℝ))^(5:ℕ) < (1367.5:ℝ)^(5:ℕ) := by
    rw [key]; norm_num
  have h2 : (4:ℝ)^(5.2:ℝ) < 1367.5 := lt_of_pow_lt_pow_left₀ 5 (by norm_num) hlt
  linarith

lemma rpow5_519_gt : (4218.75:ℝ) < (5:ℝ) ^ (5.19:ℝ) := by
  have hsplit : (5:ℝ) ^ (5.19:ℝ) = (5:ℝ)^(5:ℕ) * (5:ℝ)^(0.19:ℝ) := by
    rw [← Real.rpow_natCast (5:ℝ) 5, ← Real.rpow_add (by norm_num)]
    norm_num
  have key : ((5:ℝ)^(0.19:ℝ))^(100:ℕ) = (5:ℝ)^(19:ℕ) := by
    rw [← Real.rpow_natCast ((5:ℝ)^(0.19:ℝ)) 100, ← Real.rpow_mul (by norm_num),
      show (0.19:ℝ) * ((100:ℕ):ℝ) = ((19:ℕ):ℝ) by push_cast; norm_num, Real.rpow_natCast]
  have hlt : (1.35:ℝ)^(100:ℕ) < ((5:ℝ)^(0.19:ℝ))^(100:ℕ) := by
    rw [key]; norm_num
  have h135 : (1.35:ℝ) < (5:ℝ)^(0.19:ℝ) :=
    lt_of_pow_lt_pow_left₀ 100 (Real.rpow_pos_of_pos (by norm_num) _).le hlt
  rw [hsplit]
  nlinarith [h135]

/-- C7 counterexample: the residual is not strictly increasing on `[0.1, 20]`
for all valid inputs.  With `W18 = 1`, `Zr = 0`, `So = 0.45`, `ΔPSI =
0.0000027` and `Mr = 1` (all invariants of §3 hold: every quantity positive),
the serviceability term's numerator is `log10(10⁻⁶) = −6`, and the residual is
strictly smaller at `SN = 4` than at `SN = 3`. -/
theorem C7_counterexample :
    (0.1:ℝ) ≤ 3 ∧ (3:ℝ) < 4 ∧ (4:ℝ) ≤ 20
    ∧ aashto_1993_equation 4 1 0 0.45 0.0000027 1
        < aashto_1993_equation 3 1 0 0.45 0.0000027 1 := by
  refine ⟨by norm_num, by norm_num, by norm_num, ?_⟩
  rw [residual_c7, residual_c7,
    show (4:ℝ)+1 = 5 by norm_num, show (3:ℝ)+1 = 4 by norm_num]
  simp only [log10]
  have h4pos : (0:ℝ) < (4:ℝ)^(5.19:ℝ) := Real.rpow_pos_of_pos (by norm_num) _
  have h5pos : (0:ℝ) < (5:ℝ)^(5.19:ℝ) := Real.rpow_pos_of_pos (by norm_num) _
  have hlogdiff : Real.logb 10 5 - Real.logb 10 4 = Real.logb 10 (5/4) :=
    (Real.logb_div (by norm_num) (by norm_num)).symm
  have hD4 : (1.2:ℝ) < 0.4 + 1094 / (4:ℝ)^(5.19:ℝ) := by
    have h : (0.8:ℝ) < 1094 / (4:ℝ)^(5.19:ℝ) := by
      rw [lt_div_iff₀ h4pos]
      nlinarith [rpow4_519_lt]
    linarith
  have hD5 : 0.4 + 1094 / (5:ℝ)^(5.19:ℝ) < 0.66 := by
    have h : 1094 / (5:ℝ)^(5.19:ℝ) < 0.26 := by
      rw [div_lt_iff₀ h5pos]
      nlinarith [rpow5_519_gt]
    linarith
  have hD4pos : (0:ℝ) < 0.4 + 1094 / (4:ℝ)^(5.19:ℝ) := by positivity
  have hD5pos : (0:ℝ) < 0.4 + 1094 / (5:ℝ)^(5.19:ℝ) := by positivity
  have h6D4 : 6 / (0.4 + 1094 / (4:ℝ)^(5.19:ℝ)) < 5 := by
    rw [div_lt_iff₀ hD4pos]
    linarith
  have h6D5 : (100/11:ℝ) < 6 / (0.4 + 1094 / (5:ℝ)^(5.19:ℝ)) := by
    rw [lt_div_iff₀ hD5pos]
    linarith
  linarith [logb_54_lt, hlogdiff, h6D4, h6D5]

/-- C7 (amended): for fixed `Zr, So, Mr, W18` and any `ΔPSI ≥ 2.7` (so that
the serviceability term's numerator `log10(ΔPSI/2.7)` is nonnegative), the
residual is strictly increasing in SN over `[0.1, 20]`; for smaller `ΔPSI`
(e.g. the counterexample's) strict monotonicity can fail. -/
theorem C7_theorem (W18 Zr So delta_psi Mr x y : ℝ) (hdpsi : 2.7 ≤ delta_psi)
    (hx : 0.1 ≤ x) (hxy : x < y) (_hy : y ≤ 20) :
    aashto_1993_equation x W18 Zr So delta_psi Mr
      < aashto_1993_equation y W18 Zr So delta_psi Mr := by
  simp only [aashto_1993_equation, log10]
  have hx1 : (0:ℝ) < x + 1 := by linarith
  have hy1 : (0:ℝ) < y + 1 := by linarith
  have hlog : Real.logb 10 (x+1) < Real.logb 10 (y+1) :=
    Real.logb_lt_logb (by norm_num) hx1 (by linarith)
  have hN : 0 ≤ Real.logb 10 (delta_psi / (4.2 - 1.5)) :=
    Real.logb_nonneg (by norm_num)
      (by rw [le_div_iff₀ (by norm_num : (0:ℝ) < 4.2 - 1.5)]; linarith)
  have hpx : (0:ℝ) < (x+1)^(5.19:ℝ) := Real.rpow_pos_of_pos hx1 _
  have hplt : (x+1)^(5.19:ℝ) < (y+1)^(5.19:ℝ) :=
    Real.rpow_lt_rpow hx1.le (by linarith) (by norm_num)
  have hdiv : 1094 / (y+1)^(5.19:ℝ) < 1094 / (x+1)^(5.19:ℝ) :=
    div_lt_div_of_pos_left (by norm_num) hpx hplt
  have hDy : (0:ℝ) < 0.4 + 1094 / (y+1)^(5.19:ℝ) := by positivity
  have hterm3 :
      Real.logb 10 (delta_psi / (4.2 - 1.5)) / (0.4 + 1094 / (x+1)^(5.19:ℝ))
        ≤ Real.logb 10 (delta_psi / (4.2 - 1.5)) / (0.4 + 1094 / (y+1)^(5.19:ℝ)) :=
    div_le_div_of_nonneg_left hN hDy (by linarith)
  linarith

/-- C7 witness: the amended monotonicity at `ΔPSI = 2.7`, `x = 1 < y = 2`,
with the spec's concrete-scenario values for the other parameters. -/
theorem C7_witness :
    (2.7:ℝ) ≤ 2.7 ∧ (0.1:ℝ) ≤ 1 ∧ (1:ℝ) < 2 ∧ (2:ℝ) ≤ 20
    ∧ aashto_1993_equation 1 5000000 (-1.282) 0.45 2.7 5000
        < aashto_1993_equation 2 5000000 (-1.282) 0.45 2.7 5000 :=
  ⟨le_refl _, by norm_num, by norm_num, by norm_num,
    C7_theorem 5000000 (-1.282) 0.45 2.7 5000 1 2 (le_refl _) (by norm_num)
      (by norm_num) (by norm_num)⟩
